import Mathlib

/-!
Verification of the azurefile-csi-driver fragment: the cloud-provider
bootstrap (`getCloudProvider`) and the subnet service-endpoint
reconciliation (`updateSubnetServiceEndpoints`), shallowly embedded from
the Go source.  Remote calls (the Azure subnet client, the Kubernetes
client, the cloud-provider library constructors) are abstracted as
environment records supplying their results; everything the function
itself computes is translated directly.
-/

/-! ## Constants (source lines 35-43) -/

def DefaultAzureCredentialFileEnv : String := "AZURE_CREDENTIAL_FILE"

def DefaultCredFilePathLinux : String := "/etc/kubernetes/azure.json"

def DefaultCredFilePathWindows : String := "C:\\k\\azure.json"

def storageService : String := "Microsoft.Storage"

/-! ## Data model: Azure network SDK types (the fields this code touches) -/

/-- network.ServiceEndpointPropertiesFormat: `Service` and `Locations` are
pointers in the SDK, rendered as `Option`. -/
structure ServiceEndpointPropertiesFormat where
  Service : Option String
  Locations : Option (List String)
deriving Repr, DecidableEq

/-- network.SubnetPropertiesFormat, restricted to the one field the code
reads and writes (`ServiceEndpoints`, a pointer to a slice). -/
structure SubnetPropertiesFormat where
  ServiceEndpoints : Option (List ServiceEndpointPropertiesFormat)
deriving Repr, DecidableEq

/-- network.Subnet, restricted to its properties pointer. -/
structure Subnet where
  SubnetPropertiesFormat : Option SubnetPropertiesFormat
deriving Repr, DecidableEq

/-- The azureprovider.Cloud fields read by the two functions under
verification.  Pointer-valued clients and the Kubernetes client are
rendered as presence flags. -/
structure Cloud where
  SecretName : String
  SecretNamespace : String
  CloudConfigKey : String
  UserAgent : String
  TenantID : String
  SubscriptionID : String
  ResourceGroup : String
  VnetResourceGroup : String
  VnetName : String
  SubnetName : String
  Location : String
  UseInstanceMetadata : Bool
  hasKubeClient : Bool
  hasSubnetsClient : Bool
deriving Repr, DecidableEq

/-! ## updateSubnetServiceEndpoints (source lines 136-192) -/

/-- The remote subnet API, abstracted: the result of
`SubnetsClient.Get` and the error (if any) that
`SubnetsClient.CreateOrUpdate` would report. -/
structure SubnetEnv where
  getResult : Except String Subnet
  createOrUpdateError : Option String

/-- Lock events emitted by `d.subnetLockMap.LockEntry` / `UnlockEntry`. -/
inductive LockEvent where
  | lock (key : String)
  | unlock (key : String)
deriving Repr, DecidableEq

/-- Observable outcome of one call to updateSubnetServiceEndpoints:
the returned error, the subnet passed to `CreateOrUpdate` (`none` when no
write was issued), and the lock/unlock events in order. -/
structure UpdateOutcome where
  err : Option String
  written : Option Subnet
  events : List LockEvent
deriving Repr, DecidableEq

/-- Source lines 141-144: use VnetResourceGroup when non-empty, else
ResourceGroup. -/
def effectiveResourceGroup (cloud : Cloud) : String :=
  if cloud.VnetResourceGroup.length > 0 then cloud.VnetResourceGroup else cloud.ResourceGroup

/-- Source line 151: `lockKey := resourceGroup + vnetName + subnetName`. -/
def lockKeyOf (cloud : Cloud) : String :=
  effectiveResourceGroup cloud ++ cloud.VnetName ++ cloud.SubnetName

/-- Source lines 165-171: initialize nil `SubnetPropertiesFormat` /
`ServiceEndpoints` and dereference, yielding the endpoint list. -/
def subnetEndpoints (s : Subnet) : List ServiceEndpointPropertiesFormat :=
  match s.SubnetPropertiesFormat with
  | none => []
  | some props =>
    match props.ServiceEndpoints with
    | none => []
    | some l => l

/-- Source lines 172-178: the existence loop,
`v.Service != nil && *v.Service == storageService`. -/
def hasStorageEndpoint (eps : List ServiceEndpointPropertiesFormat) : Bool :=
  eps.any (fun v => v.Service == some storageService)

/-- Source lines 159-163: the endpoint to be appended, registering the
driver location. -/
def storageServiceEndpoint (location : String) : ServiceEndpointPropertiesFormat :=
  { Service := some storageService, Locations := some [location] }

/-- Source lines 181-182: append the storage endpoint to the (initialized)
endpoint list and store it back into the subnet. -/
def appendStorageEndpoint (s : Subnet) (location : String) : Subnet :=
  let eps := subnetEndpoints s
  { s with SubnetPropertiesFormat := some { ServiceEndpoints := some (eps ++ [storageServiceEndpoint location]) } }

/-- Source line 157 error wrapping. -/
def getSubnetErrText (cloud : Cloud) (e : String) : String :=
  "failed to get the subnet " ++ cloud.SubnetName ++ " under vnet " ++ cloud.VnetName ++ ": " ++ e

/-- Source line 186 error wrapping. -/
def updateSubnetErrText (cloud : Cloud) (e : String) : String :=
  "failed to update the subnet " ++ cloud.SubnetName ++ " under vnet " ++ cloud.VnetName ++ ": " ++ e

/-- Source lines 136-192, step for step: nil-client validation, lock,
deferred unlock, remote Get, nil-field initialization, existence check,
conditional append + CreateOrUpdate. -/
def updateSubnetServiceEndpoints (cloud : Cloud) (env : SubnetEnv) : UpdateOutcome :=
  if cloud.hasSubnetsClient = false then
    { err := some "SubnetsClient is nil", written := none, events := [] }
  else
    let lockKey := lockKeyOf cloud
    let events := [LockEvent.lock lockKey, LockEvent.unlock lockKey]
    match env.getResult with
    | Except.error e =>
      { err := some (getSubnetErrText cloud e), written := none, events := events }
    | Except.ok subnet =>
      let serviceEndpoints := subnetEndpoints subnet
      let storageServiceExists := hasStorageEndpoint serviceEndpoints
      if storageServiceExists = false then
        let newSubnet := appendStorageEndpoint subnet cloud.Location
        match env.createOrUpdateError with
        | some e =>
          { err := some (updateSubnetErrText cloud e), written := some newSubnet, events := events }
        | none =>
          { err := none, written := some newSubnet, events := events }
      else
        { err := none, written := none, events := events }

/-- Environment for an error-free run against remote subnet state `s`. -/
def okSubnetEnv (s : Subnet) : SubnetEnv :=
  { getResult := Except.ok s, createOrUpdateError := none }

/-- The remote subnet state after one error-free run: the written subnet
when a write was issued, otherwise unchanged. -/
def stepSubnet (cloud : Cloud) (s : Subnet) : Subnet :=
  match (updateSubnetServiceEndpoints cloud (okSubnetEnv s)).written with
  | some w => w
  | none => s

/-- Number of Microsoft.Storage entries in an endpoint list. -/
def countStorage (eps : List ServiceEndpointPropertiesFormat) : Nat :=
  eps.countP (fun v => v.Service == some storageService)

/-! ## Lock-trace model for the named lock (source lines 151-153)

The lock map (`d.subnetLockMap`, from the cloud-provider library) is not
part of this repository.  Modelled from the spec: a "named lock / lock
map" is "a mutual-exclusion primitive keyed by an arbitrary string
identity"; `LockEntry k` blocks while another holder owns key `k`,
`UnlockEntry k` releases it.  An invocation of
updateSubnetServiceEndpoints is rendered as its sequence of atomic
actions (lock, remote Get, optional CreateOrUpdate, unlock), and traces
are interleavings of such sequences that respect lock availability. -/

/-- Atomic actions of one invocation, as ordered in the source. -/
inductive SubnetAction where
  | lock (key : String)
  | get
  | createOrUpdate
  | unlock (key : String)
deriving Repr, DecidableEq

/-- The actions performed between LockEntry and UnlockEntry on a given
environment: the Get always happens; CreateOrUpdate happens exactly when
the Get succeeded and the storage endpoint was absent. -/
def criticalActions (env : SubnetEnv) : List SubnetAction :=
  match env.getResult with
  | Except.error _ => [SubnetAction.get]
  | Except.ok s =>
    if hasStorageEndpoint (subnetEndpoints s) = false then
      [SubnetAction.get, SubnetAction.createOrUpdate]
    else
      [SubnetAction.get]

/-- The full action sequence of one invocation: nothing when the client
is nil (the function returns before locking), otherwise lock, critical
section, unlock — the unlock last via `defer`. -/
def invocationActions (cloud : Cloud) (env : SubnetEnv) : List SubnetAction :=
  if cloud.hasSubnetsClient = false then []
  else
    SubnetAction.lock (lockKeyOf cloud) :: (criticalActions env ++ [SubnetAction.unlock (lockKeyOf cloud)])

/-- Tag each action with the thread (`true`/`false`) performing it. -/
def tagThread (t : Bool) (acts : List SubnetAction) : List (Bool × SubnetAction) :=
  acts.map (fun a => (t, a))

/-- One scheduler step: `held` maps each locked key to its holding
thread.  Taking a lock is enabled only when the key is free; unlocking
requires ownership; Get and CreateOrUpdate do not touch the lock state. -/
def lockStep (held : List (String × Bool)) (t : Bool) (a : SubnetAction) : Option (List (String × Bool)) :=
  match a with
  | SubnetAction.lock k => if (held.lookup k).isSome then none else some ((k, t) :: held)
  | SubnetAction.unlock k =>
    if held.lookup k == some t then some (held.filter (fun p => p.1 != k)) else none
  | SubnetAction.get => some held
  | SubnetAction.createOrUpdate => some held

/-- Run a tagged trace from a lock state; `none` when some step was
disabled (the schedule is not realizable). -/
def runTrace : List (String × Bool) → List (Bool × SubnetAction) → Option (List (String × Bool))
  | held, [] => some held
  | held, (t, a) :: rest =>
    match lockStep held t a with
    | none => none
    | some held2 => runTrace held2 rest

/-- `Weave xs ys zs`: `zs` is an interleaving of `xs` and `ys`
(order within each preserved). -/
inductive Weave : List (Bool × SubnetAction) → List (Bool × SubnetAction) → List (Bool × SubnetAction) → Prop where
  | nil : Weave [] [] []
  | left {x : Bool × SubnetAction} {xs ys zs : List (Bool × SubnetAction)} :
      Weave xs ys zs → Weave (x :: xs) ys (x :: zs)
  | right {y : Bool × SubnetAction} {xs ys zs : List (Bool × SubnetAction)} :
      Weave xs ys zs → Weave xs (y :: ys) (y :: zs)

/-! ## getCloudProvider (source lines 46-116)

External collaborators are abstracted in `CloudEnv`.  `secretInit`
(library call `az.InitializeCloudFromSecret`, source line 63) and
`newCloudFromFile` (library call `azureprovider.NewCloudWithoutFeatureGates`,
source line 89) are code of the cloud-provider library, not of this
repository.  Modelled from the spec: the Kubernetes client is "used only
to read a credentials secret or fall back to a local credentials file";
each call either produces a Cloud configuration or fails with an error
(the Go convention `(nil, err)` on failure, so a failed constructor
yields no Cloud value). -/

/-- Error from building the Kubernetes client, with the two predicates
tested at source line 56 (`os.IsNotExist`, `rest.ErrNotInCluster`). -/
structure KubeError where
  isNotExist : Bool
  isNotInCluster : Bool
  msg : String
deriving Repr, DecidableEq

/-- Results of every external call getCloudProvider makes. -/
structure CloudEnv where
  kubeClientResult : Except KubeError Unit
  secretInit : Except String Cloud
  credFileEnvVar : Option String
  goos : String
  openFile : String → Option String
  newCloudFromFile : String → Except String Cloud

/-- Observable outcome of getCloudProvider: the returned Cloud pointer
(`none` = nil), the returned error, the internal `err` variable at the
controller check (line 104), the credential-file path handed to
`os.Open` (if reached), and whether line 94 dereferenced a nil `az`. -/
structure CloudProviderOutcome where
  az : Option Cloud
  err : Option String
  loadErr : Option String
  credFileTried : Option String
  panicked : Bool

/-- Source lines 47-54: the freshly allocated Cloud with its secret
config and user agent. -/
def initialAz (secretName secretNamespace userAgent : String) : Cloud :=
  { SecretName := secretName, SecretNamespace := secretNamespace, CloudConfigKey := "cloud-config",
    UserAgent := userAgent, TenantID := "", SubscriptionID := "", ResourceGroup := "",
    VnetResourceGroup := "", VnetName := "", SubnetName := "", Location := "",
    UseInstanceMetadata := false, hasKubeClient := false, hasSubnetsClient := false }

/-- Source line 56: the error that aborts the function — a kube-client
failure that is neither file-not-found nor not-in-cluster. -/
def kubeFatalError (env : CloudEnv) : Option String :=
  match env.kubeClientResult with
  | Except.ok _ => none
  | Except.error e => if !e.isNotExist && !e.isNotInCluster then some e.msg else none

/-- Whether `kubeClient != nil` holds after line 55. -/
def kubeClientOk (env : CloudEnv) : Bool :=
  match env.kubeClientResult with
  | Except.ok _ => true
  | Except.error _ => false

/-- Source lines 55-67: `az` and `err` after the kube-client build and
the secret-based initialization attempt (assuming no fatal return). -/
def azAfterSecret (secretName secretNamespace userAgent : String) (env : CloudEnv) :
    Cloud × Option String :=
  let az := initialAz secretName secretNamespace userAgent
  match env.kubeClientResult with
  | Except.error e => (az, some e.msg)
  | Except.ok _ =>
    match env.secretInit with
    | Except.ok c => ({ c with hasKubeClient := true }, none)
    | Except.error e => ({ az with hasKubeClient := true }, some e)

/-- Source line 69: the config-incomplete test that triggers the
credential-file fallback. -/
def isConfigIncomplete (az : Cloud) : Bool :=
  az.TenantID == "" || az.SubscriptionID == "" || az.ResourceGroup == ""

/-- Source lines 71-81: the credential-file path — the environment
variable when set, else the platform default. -/
def credFilePath (env : CloudEnv) : String :=
  match env.credFileEnvVar with
  | some f => f
  | none => if env.goos == "windows" then DefaultCredFilePathWindows else DefaultCredFilePathLinux

/-- Source lines 69-91: `az`, `err` and the attempted credential file
after the fallback block.  `az` becomes `none` when the file opened but
the cloud constructor failed (Go: `az, err = NewCloudWithoutFeatureGates`
reassigns `az` to the returned nil pointer). -/
def azAfterCredFile (secretName secretNamespace userAgent : String) (env : CloudEnv) :
    Option Cloud × Option String × Option String :=
  if isConfigIncomplete (azAfterSecret secretName secretNamespace userAgent env).1 then
    match env.openFile (credFilePath env) with
    | some eOpen =>
      (some (azAfterSecret secretName secretNamespace userAgent env).1,
       some ("load azure config from file(" ++ credFilePath env ++ ") failed with " ++ eOpen),
       some (credFilePath env))
    | none =>
      match env.newCloudFromFile (credFilePath env) with
      | Except.ok c => (some c, none, some (credFilePath env))
      | Except.error e => (none, some e, some (credFilePath env))
  else
    (some (azAfterSecret secretName secretNamespace userAgent env).1,
     (azAfterSecret secretName secretNamespace userAgent env).2, none)

/-- Source lines 93-96: reassign the kube client.  Evaluating
`az.KubeClient` with a nil `az` and a non-nil `kubeClient` is a nil
dereference; the Bool records it. -/
def azBeforeController (secretName secretNamespace userAgent : String) (env : CloudEnv) :
    Option Cloud × Option String × Option String × Bool :=
  if kubeClientOk env then
    match (azAfterCredFile secretName secretNamespace userAgent env).1 with
    | none =>
      (none, (azAfterCredFile secretName secretNamespace userAgent env).2.1,
       (azAfterCredFile secretName secretNamespace userAgent env).2.2, true)
    | some a =>
      if a.hasKubeClient = false then
        (some { a with hasKubeClient := true },
         (azAfterCredFile secretName secretNamespace userAgent env).2.1,
         (azAfterCredFile secretName secretNamespace userAgent env).2.2, false)
      else
        (some a, (azAfterCredFile secretName secretNamespace userAgent env).2.1,
         (azAfterCredFile secretName secretNamespace userAgent env).2.2, false)
  else
    ((azAfterCredFile secretName secretNamespace userAgent env).1,
     (azAfterCredFile secretName secretNamespace userAgent env).2.1,
     (azAfterCredFile secretName secretNamespace userAgent env).2.2, false)

/-- The Cloud value the function would return before the controller-mode
adjustment of lines 102-113 (the fatal-return path included). -/
def azUntweaked (secretName secretNamespace userAgent : String) (env : CloudEnv) : Option Cloud :=
  match kubeFatalError env with
  | some _ => some (initialAz secretName secretNamespace userAgent)
  | none => (azBeforeController secretName secretNamespace userAgent env).1

/-- Source lines 46-116 assembled.  The `kubeconfig` argument only feeds
the kube-client build, whose result `env` already carries. -/
def getCloudProvider (kubeconfig nodeID secretName secretNamespace userAgent : String)
    (env : CloudEnv) : CloudProviderOutcome :=
  match kubeFatalError env with
  | some m =>
    { az := some (initialAz secretName secretNamespace userAgent),
      err := some ("failed to get KubeClient: " ++ m),
      loadErr := some ("failed to get KubeClient: " ++ m),
      credFileTried := none, panicked := false }
  | none =>
    if (azBeforeController secretName secretNamespace userAgent env).2.2.2 then
      { az := none, err := none,
        loadErr := (azBeforeController secretName secretNamespace userAgent env).2.1,
        credFileTried := (azBeforeController secretName secretNamespace userAgent env).2.2.1,
        panicked := true }
    else
      { az :=
          if nodeID == "" && (azBeforeController secretName secretNamespace userAgent env).2.1 == none then
            (azBeforeController secretName secretNamespace userAgent env).1.map
              (fun a => { a with UseInstanceMetadata := false })
          else (azBeforeController secretName secretNamespace userAgent env).1,
        err := none,
        loadErr := (azBeforeController secretName secretNamespace userAgent env).2.1,
        credFileTried := (azBeforeController secretName secretNamespace userAgent env).2.2.1,
        panicked := false }

/-! ## Auxiliary definitions for the statements -/

/-- Fold the emitted lock events: the multiset of keys still held at
return. -/
def heldAfterEvents : List String → List LockEvent → List String
  | held, [] => held
  | held, LockEvent.lock k :: rest => heldAfterEvents (k :: held) rest
  | held, LockEvent.unlock k :: rest => heldAfterEvents (held.erase k) rest

/-- The existence check as claim C2 words it: a storage endpoint counts
only when it is registered for the given location.  (The source's check,
`hasStorageEndpoint`, ignores the locations; this definition exists to be
compared against it.) -/
def storageEndpointRegisteredAtLocation
    (eps : List ServiceEndpointPropertiesFormat) (location : String) : Bool :=
  eps.any (fun v =>
    v.Service == some storageService &&
      (match v.Locations with
       | some ls => ls.contains location
       | none => false))

/-- A driver cloud configuration with a live SubnetsClient, used for the
concrete evaluations. -/
def demoCloud : Cloud :=
  { SecretName := "", SecretNamespace := "", CloudConfigKey := "cloud-config", UserAgent := "",
    TenantID := "t", SubscriptionID := "sub-id", ResourceGroup := "rg", VnetResourceGroup := "",
    VnetName := "vnet", SubnetName := "subnet", Location := "eastus",
    UseInstanceMetadata := false, hasKubeClient := false, hasSubnetsClient := true }

/-- A second driver configuration whose lock key differs from
`demoCloud`'s. -/
def demoCloudB : Cloud :=
  { demoCloud with SubnetName := "subnet2" }

/-- A subnet that already has a Microsoft.Storage endpoint, but one
registered for location "westus" only. -/
def c2Subnet : Subnet :=
  { SubnetPropertiesFormat := some
      { ServiceEndpoints := some
          [ { Service := some "Microsoft.Storage", Locations := some ["westus"] } ] } }

/-- A subnet with no service endpoints at all. -/
def emptySubnet : Subnet :=
  { SubnetPropertiesFormat := none }

/-- A subnet that already has a Microsoft.Storage endpoint for the
driver's own location. -/
def storageSubnet : Subnet :=
  { SubnetPropertiesFormat := some
      { ServiceEndpoints := some
          [ { Service := some "Microsoft.Storage", Locations := some ["eastus"] } ] } }

/-- A remote environment whose Get fails with the raw error "boom". -/
def c5SubnetEnv : SubnetEnv :=
  { getResult := Except.error "boom", createOrUpdateError := none }

/-- An environment in which the kube client cannot be built (not in
cluster), the credential file opens, but the cloud constructor fails:
`az` is reassigned to the constructor's nil result. -/
def c7Env : CloudEnv :=
  { kubeClientResult := Except.error { isNotExist := false, isNotInCluster := true, msg := "unable to load in-cluster configuration" },
    secretInit := Except.error "no secret",
    credFileEnvVar := some "/tmp/azure.json",
    goos := "linux",
    openFile := fun _ => none,
    newCloudFromFile := fun _ => Except.error "parse error" }

/-- An environment in which every step succeeds: the kube client builds
and the secret yields a complete configuration (with instance metadata
initially enabled, so the controller-mode adjustment is observable). -/
def happyCloudEnv : CloudEnv :=
  { kubeClientResult := Except.ok (),
    secretInit := Except.ok { demoCloud with UseInstanceMetadata := true },
    credFileEnvVar := none,
    goos := "linux",
    openFile := fun _ => some "open error",
    newCloudFromFile := fun _ => Except.error "unused" }

/-- An environment in which the kube client reports not-in-cluster and
the credential file cannot be opened: nothing loads. -/
def noConfigEnv : CloudEnv :=
  { kubeClientResult := Except.error { isNotExist := false, isNotInCluster := true, msg := "unable to load in-cluster configuration" },
    secretInit := Except.error "no secret",
    credFileEnvVar := none,
    goos := "linux",
    openFile := fun _ => some "no such file or directory",
    newCloudFromFile := fun _ => Except.error "unused" }

/-- The fully sequential schedule of two same-key invocations: one
invocation against an empty subnet, then one against a subnet already
holding the storage endpoint. -/
def c3SeqTrace : List (Bool × SubnetAction) :=
  tagThread true (invocationActions demoCloud (okSubnetEnv emptySubnet)) ++
    tagThread false (invocationActions demoCloud (okSubnetEnv c2Subnet))

/-! ## Helper lemmas -/

theorem weave_nil_left {ys zs : List (Bool × SubnetAction)}
    (h : Weave [] ys zs) : zs = ys := by
  have aux : ∀ {xs ys zs : List (Bool × SubnetAction)}, Weave xs ys zs → xs = [] → zs = ys := by
    intro xs ys zs h
    induction h with
    | nil => intro _; rfl
    | left h ih => intro hx; simp at hx
    | right h ih => intro hx; rw [ih hx]
  exact aux h rfl

theorem weave_swap {xs ys zs : List (Bool × SubnetAction)}
    (h : Weave xs ys zs) : Weave ys xs zs := by
  induction h with
  | nil => exact Weave.nil
  | left h ih => exact Weave.right ih
  | right h ih => exact Weave.left ih

theorem weave_append (xs ys : List (Bool × SubnetAction)) : Weave xs ys (xs ++ ys) := by
  induction xs with
  | nil =>
    induction ys with
    | nil => exact Weave.nil
    | cons y ys ih => exact Weave.right ih
  | cons x xs ih => exact Weave.left ih

theorem criticalActions_cases (env : SubnetEnv) :
    criticalActions env = [SubnetAction.get] ∨
    criticalActions env = [SubnetAction.get, SubnetAction.createOrUpdate] := by
  unfold criticalActions
  rcases hg : env.getResult with e | s
  · exact Or.inl rfl
  · by_cases hs : hasStorageEndpoint (subnetEndpoints s) = false
    · right; simp [hs]
    · left; simp [hs]

theorem criticalActions_mem (env : SubnetEnv) :
    ∀ a ∈ criticalActions env, a = SubnetAction.get ∨ a = SubnetAction.createOrUpdate := by
  intro a ha
  rcases criticalActions_cases env with h | h <;> rw [h] at ha <;> simp at ha
  · exact Or.inl ha
  · exact ha

theorem locked_run_sequential (k : String) (t : Bool) :
    ∀ (ms : List SubnetAction),
    (∀ a ∈ ms, a = SubnetAction.get ∨ a = SubnetAction.createOrUpdate) →
    ∀ (rest : List SubnetAction) (zs : List (Bool × SubnetAction)) (held : List (String × Bool)),
    held.lookup k = some t →
    Weave (tagThread t (ms ++ [SubnetAction.unlock k]))
      (tagThread (!t) (SubnetAction.lock k :: rest)) zs →
    (runTrace held zs).isSome = true →
    zs = tagThread t (ms ++ [SubnetAction.unlock k]) ++
      tagThread (!t) (SubnetAction.lock k :: rest) := by
  intro ms
  induction ms with
  | nil =>
    intro _ rest zs held hl hw hv
    simp only [tagThread, List.nil_append, List.map_cons, List.map_nil] at hw
    cases hw with
    | left hw2 =>
      have h2 := weave_nil_left hw2
      rw [h2]
      simp [tagThread]
    | right hw2 =>
      exfalso
      simp [runTrace, lockStep, hl] at hv
  | cons m ms ih =>
    intro hms rest zs held hl hw hv
    simp only [tagThread, List.cons_append, List.map_cons] at hw
    cases hw with
    | @left x xs ys zs2 hw2 =>
      have hm := hms m (List.mem_cons_self _ _)
      have hstep : lockStep held t m = some held := by
        rcases hm with h | h <;> subst h <;> rfl
      have hv2 : (runTrace held zs2).isSome = true := by
        simpa [runTrace, hstep] using hv
      have h3 := ih (fun a ha => hms a (List.mem_cons_of_mem _ ha)) rest zs2 held hl hw2 hv2
      simp only [tagThread] at h3
      simp [tagThread, h3]
    | right hw2 =>
      exfalso
      simp [runTrace, lockStep, hl] at hv

theorem subnetEndpoints_append (s : Subnet) (loc : String) :
    subnetEndpoints (appendStorageEndpoint s loc) = subnetEndpoints s ++ [storageServiceEndpoint loc] := rfl

theorem hasStorageEndpoint_append (eps : List ServiceEndpointPropertiesFormat) (loc : String) :
    hasStorageEndpoint (eps ++ [storageServiceEndpoint loc]) = true := by
  simp [hasStorageEndpoint, storageServiceEndpoint]

theorem countStorage_eq_zero {eps : List ServiceEndpointPropertiesFormat}
    (h : hasStorageEndpoint eps = false) : countStorage eps = 0 := by
  simp only [hasStorageEndpoint, List.any_eq_false] at h
  simpa [countStorage, List.countP_eq_zero] using h

theorem update_present {cloud : Cloud} {env : SubnetEnv} {s : Subnet}
    (hc : cloud.hasSubnetsClient = true) (hg : env.getResult = Except.ok s)
    (hs : hasStorageEndpoint (subnetEndpoints s) = true) :
    updateSubnetServiceEndpoints cloud env =
      { err := none, written := none,
        events := [LockEvent.lock (lockKeyOf cloud), LockEvent.unlock (lockKeyOf cloud)] } := by
  simp [updateSubnetServiceEndpoints, hc, hg, hs]

theorem update_absent {cloud : Cloud} {env : SubnetEnv} {s : Subnet}
    (hc : cloud.hasSubnetsClient = true) (hg : env.getResult = Except.ok s)
    (hs : hasStorageEndpoint (subnetEndpoints s) = false) (hw : env.createOrUpdateError = none) :
    updateSubnetServiceEndpoints cloud env =
      { err := none, written := some (appendStorageEndpoint s cloud.Location),
        events := [LockEvent.lock (lockKeyOf cloud), LockEvent.unlock (lockKeyOf cloud)] } := by
  simp [updateSubnetServiceEndpoints, hc, hg, hs, hw]

theorem update_absent_writeErr {cloud : Cloud} {env : SubnetEnv} {s : Subnet} {e : String}
    (hc : cloud.hasSubnetsClient = true) (hg : env.getResult = Except.ok s)
    (hs : hasStorageEndpoint (subnetEndpoints s) = false) (hw : env.createOrUpdateError = some e) :
    updateSubnetServiceEndpoints cloud env =
      { err := some (updateSubnetErrText cloud e), written := some (appendStorageEndpoint s cloud.Location),
        events := [LockEvent.lock (lockKeyOf cloud), LockEvent.unlock (lockKeyOf cloud)] } := by
  simp [updateSubnetServiceEndpoints, hc, hg, hs, hw]

theorem stepSubnet_present {cloud : Cloud} {s : Subnet}
    (hs : hasStorageEndpoint (subnetEndpoints s) = true) :
    stepSubnet cloud s = s := by
  cases hc : cloud.hasSubnetsClient with
  | false => simp [stepSubnet, updateSubnetServiceEndpoints, hc]
  | true => simp [stepSubnet, @update_present cloud (okSubnetEnv s) s hc rfl hs]

theorem stepSubnet_absent {cloud : Cloud} {s : Subnet}
    (hc : cloud.hasSubnetsClient = true)
    (hs : hasStorageEndpoint (subnetEndpoints s) = false) :
    stepSubnet cloud s = appendStorageEndpoint s cloud.Location := by
  simp [stepSubnet, @update_absent cloud (okSubnetEnv s) s hc rfl hs rfl]

/-! ## Claims C1, C2, C4, C5, C6, C9 -/

/-- Claim C1: updateSubnetServiceEndpoints is idempotent — for every
subnet state returned by the remote Get, running the operation twice
yields the same final state as running it once, any written endpoint
list holds the Microsoft.Storage endpoint at most once, and the second
run performs no write. -/
theorem c1_update_idempotent (cloud : Cloud) (s : Subnet)
    (hc : cloud.hasSubnetsClient = true) :
    stepSubnet cloud (stepSubnet cloud s) = stepSubnet cloud s ∧
    (∀ w, (updateSubnetServiceEndpoints cloud (okSubnetEnv s)).written = some w →
      countStorage (subnetEndpoints w) ≤ 1) ∧
    (updateSubnetServiceEndpoints cloud (okSubnetEnv (stepSubnet cloud s))).written = none := by
  cases hs : hasStorageEndpoint (subnetEndpoints s) with
  | true =>
    have h1 : stepSubnet cloud s = s := stepSubnet_present hs
    refine ⟨by rw [h1, h1], ?_, ?_⟩
    · intro w hw
      rw [@update_present cloud (okSubnetEnv s) s hc rfl hs] at hw
      simp at hw
    · rw [h1]
      simp [@update_present cloud (okSubnetEnv s) s hc rfl hs]
  | false =>
    have h1 : stepSubnet cloud s = appendStorageEndpoint s cloud.Location :=
      stepSubnet_absent hc hs
    have h2 : hasStorageEndpoint (subnetEndpoints (appendStorageEndpoint s cloud.Location)) = true := by
      rw [subnetEndpoints_append]; exact hasStorageEndpoint_append _ _
    refine ⟨?_, ?_, ?_⟩
    · rw [h1, stepSubnet_present h2]
    · intro w hw
      rw [@update_absent cloud (okSubnetEnv s) s hc rfl hs rfl] at hw
      simp only [Option.some.injEq] at hw
      subst hw
      rw [subnetEndpoints_append]
      have h0 := countStorage_eq_zero hs
      simp only [countStorage] at h0 ⊢
      simp [List.countP_append, storageServiceEndpoint, h0, List.countP_cons]
    · rw [h1]
      simp [@update_present cloud (okSubnetEnv (appendStorageEndpoint s cloud.Location))
        (appendStorageEndpoint s cloud.Location) hc rfl h2]

/-- Witness for C1 at a concrete input: the empty subnet under demoCloud. -/
theorem c1_witness :
    stepSubnet demoCloud (stepSubnet demoCloud emptySubnet) = stepSubnet demoCloud emptySubnet ∧
    (∀ w, (updateSubnetServiceEndpoints demoCloud (okSubnetEnv emptySubnet)).written = some w →
      countStorage (subnetEndpoints w) ≤ 1) ∧
    (updateSubnetServiceEndpoints demoCloud (okSubnetEnv (stepSubnet demoCloud emptySubnet))).written = none :=
  c1_update_idempotent demoCloud emptySubnet rfl

/-- Claim C2 counterexample: a subnet whose Microsoft.Storage endpoint is
registered for "westus" only, under a driver located in "eastus".  An
endpoint registered for the driver's location is absent, yet the function
performs no write — the source's check compares service names only. -/
theorem c2_counterexample :
    storageEndpointRegisteredAtLocation (subnetEndpoints c2Subnet) demoCloud.Location = false ∧
    (updateSubnetServiceEndpoints demoCloud (okSubnetEnv c2Subnet)).written = none ∧
    (updateSubnetServiceEndpoints demoCloud (okSubnetEnv c2Subnet)).err = none :=
  ⟨rfl, rfl, rfl⟩

/-- Claim C2 (amended): the function checks whether any service endpoint
with service name Microsoft.Storage is present, regardless of its
registered locations, and appends the endpoint (registering the driver's
location) and writes the subnet back exactly when no such endpoint is
present. -/
theorem c2_write_iff_storage_absent (cloud : Cloud) (env : SubnetEnv) (s : Subnet)
    (hc : cloud.hasSubnetsClient = true) (hg : env.getResult = Except.ok s) :
    ((updateSubnetServiceEndpoints cloud env).written ≠ none ↔
      hasStorageEndpoint (subnetEndpoints s) = false) ∧
    (hasStorageEndpoint (subnetEndpoints s) = false →
      (updateSubnetServiceEndpoints cloud env).written =
        some (appendStorageEndpoint s cloud.Location)) := by
  cases hs : hasStorageEndpoint (subnetEndpoints s) with
  | true => simp [update_present hc hg hs]
  | false =>
    cases hw : env.createOrUpdateError with
    | none => simp [update_absent hc hg hs hw]
    | some e => simp [update_absent_writeErr hc hg hs hw]

/-- Witness for the amended C2 at a concrete input. -/
theorem c2_write_iff_storage_absent_witness :
    ((updateSubnetServiceEndpoints demoCloud (okSubnetEnv emptySubnet)).written ≠ none ↔
      hasStorageEndpoint (subnetEndpoints emptySubnet) = false) ∧
    (hasStorageEndpoint (subnetEndpoints emptySubnet) = false →
      (updateSubnetServiceEndpoints demoCloud (okSubnetEnv emptySubnet)).written =
        some (appendStorageEndpoint emptySubnet demoCloud.Location)) :=
  c2_write_iff_storage_absent demoCloud (okSubnetEnv emptySubnet) emptySubnet rfl rfl

/-- Claim C4: on every exit path the emitted lock events leave no lock
held at return, and they are either empty (the nil-client validation
path, which never acquires) or exactly one acquisition of the key
followed by its release. -/
theorem c4_lock_released_on_every_path (cloud : Cloud) (env : SubnetEnv) :
    heldAfterEvents [] (updateSubnetServiceEndpoints cloud env).events = [] ∧
    ((updateSubnetServiceEndpoints cloud env).events = [] ∨
     (updateSubnetServiceEndpoints cloud env).events =
       [LockEvent.lock (lockKeyOf cloud), LockEvent.unlock (lockKeyOf cloud)]) := by
  cases hc : cloud.hasSubnetsClient with
  | false => simp [updateSubnetServiceEndpoints, hc, heldAfterEvents]
  | true =>
    have hev : (updateSubnetServiceEndpoints cloud env).events =
        [LockEvent.lock (lockKeyOf cloud), LockEvent.unlock (lockKeyOf cloud)] := by
      cases hg : env.getResult with
      | error e => simp [updateSubnetServiceEndpoints, hc, hg]
      | ok s =>
        cases hs : hasStorageEndpoint (subnetEndpoints s) with
        | true => simp [update_present hc hg hs]
        | false =>
          cases hw : env.createOrUpdateError with
          | none => simp [update_absent hc hg hs hw]
          | some e => simp [update_absent_writeErr hc hg hs hw]
    rw [hev]
    exact ⟨by simp [heldAfterEvents], Or.inr rfl⟩

/-- Claim C5 counterexample: the remote Get fails with the raw error
"boom", but the returned error is the wrapped message, not "boom" —
errors are wrapped with context, not propagated unmodified. -/
theorem c5_counterexample :
    c5SubnetEnv.getResult = Except.error "boom" ∧
    (updateSubnetServiceEndpoints demoCloud c5SubnetEnv).err ≠ some "boom" := by
  exact ⟨rfl, by decide⟩

/-- Claim C5 (amended): a non-nil error is returned exactly when the
SubnetsClient is nil, the remote Get fails, or (the endpoint being
absent) the remote CreateOrUpdate fails; errors from the remote fetch or
write are wrapped with a contextual message naming the subnet and vnet
and embedding the original error text, with no retry and no
classification. -/
theorem c5_error_conditions (cloud : Cloud) (env : SubnetEnv) :
    ((updateSubnetServiceEndpoints cloud env).err ≠ none ↔
      (cloud.hasSubnetsClient = false ∨
       (∃ e, env.getResult = Except.error e) ∨
       ((∃ s, env.getResult = Except.ok s ∧ hasStorageEndpoint (subnetEndpoints s) = false) ∧
        env.createOrUpdateError ≠ none))) ∧
    (∀ e, cloud.hasSubnetsClient = true → env.getResult = Except.error e →
      (updateSubnetServiceEndpoints cloud env).err = some (getSubnetErrText cloud e)) ∧
    (∀ s e, cloud.hasSubnetsClient = true → env.getResult = Except.ok s →
      hasStorageEndpoint (subnetEndpoints s) = false → env.createOrUpdateError = some e →
      (updateSubnetServiceEndpoints cloud env).err = some (updateSubnetErrText cloud e)) := by
  refine ⟨?_, ?_, ?_⟩
  · cases hc : cloud.hasSubnetsClient with
    | false => simp [updateSubnetServiceEndpoints, hc]
    | true =>
      cases hg : env.getResult with
      | error e0 => simp [updateSubnetServiceEndpoints, hc, hg]
      | ok s0 =>
        cases hs : hasStorageEndpoint (subnetEndpoints s0) with
        | true => simp [update_present hc hg hs, hg, hs]
        | false =>
          cases hw : env.createOrUpdateError with
          | none => simp [update_absent hc hg hs hw, hg, hs, hw]
          | some e0 =>
            simp [update_absent_writeErr hc hg hs hw, hg, hs, hw]
  · intro e hc hg
    simp [updateSubnetServiceEndpoints, hc, hg]
  · intro s e hc hg hs hw
    rw [update_absent_writeErr hc hg hs hw]

/-- Witness for the amended C5: the wrapped Get error at a concrete
input. -/
theorem c5_error_conditions_witness :
    (updateSubnetServiceEndpoints demoCloud c5SubnetEnv).err =
      some (getSubnetErrText demoCloud "boom") :=
  (c5_error_conditions demoCloud c5SubnetEnv).2.1 "boom" rfl rfl

/-- Claim C6: when the fetched subnet already has a Microsoft.Storage
service endpoint, no CreateOrUpdate is issued, the remote state is left
unchanged, and nil is returned. -/
theorem c6_present_no_write (cloud : Cloud) (env : SubnetEnv) (s : Subnet)
    (hc : cloud.hasSubnetsClient = true) (hg : env.getResult = Except.ok s)
    (hs : hasStorageEndpoint (subnetEndpoints s) = true) :
    (updateSubnetServiceEndpoints cloud env).written = none ∧
    (updateSubnetServiceEndpoints cloud env).err = none ∧
    ((updateSubnetServiceEndpoints cloud env).written.getD s = s) := by
  simp [update_present hc hg hs]

/-- Witness for C6: a subnet holding a storage endpoint, with a
CreateOrUpdate that would fail if it were (wrongly) invoked. -/
theorem c6_present_no_write_witness :
    (updateSubnetServiceEndpoints demoCloud
      { getResult := Except.ok storageSubnet, createOrUpdateError := some "write would fail" }).written = none ∧
    (updateSubnetServiceEndpoints demoCloud
      { getResult := Except.ok storageSubnet, createOrUpdateError := some "write would fail" }).err = none ∧
    ((updateSubnetServiceEndpoints demoCloud
      { getResult := Except.ok storageSubnet, createOrUpdateError := some "write would fail" }).written.getD storageSubnet = storageSubnet) :=
  c6_present_no_write demoCloud
    { getResult := Except.ok storageSubnet, createOrUpdateError := some "write would fail" }
    storageSubnet rfl rfl rfl

/-- Claim C9: a fetched subnet with nil SubnetPropertiesFormat or a nil
ServiceEndpoints list is treated as having an empty endpoint list; the
function initializes the missing parts and proceeds to the existence
check and the conditional append, writing the initialized subnet and
succeeding whenever the remote write succeeds. -/
theorem c9_nil_fields_treated_as_empty (cloud : Cloud) (env : SubnetEnv) (s : Subnet)
    (hg : env.getResult = Except.ok s)
    (hnil : s.SubnetPropertiesFormat = none ∨
            s.SubnetPropertiesFormat = some { ServiceEndpoints := none }) :
    subnetEndpoints s = [] ∧
    (cloud.hasSubnetsClient = true →
      (updateSubnetServiceEndpoints cloud env).written =
        some { SubnetPropertiesFormat := some { ServiceEndpoints := some [storageServiceEndpoint cloud.Location] } } ∧
      (env.createOrUpdateError = none → (updateSubnetServiceEndpoints cloud env).err = none)) := by
  have he : subnetEndpoints s = [] := by
    rcases hnil with h | h <;> simp [subnetEndpoints, h]
  have hs : hasStorageEndpoint (subnetEndpoints s) = false := by rw [he]; rfl
  refine ⟨he, fun hc => ⟨?_, fun hw => ?_⟩⟩
  · cases hw : env.createOrUpdateError with
    | none => rw [update_absent hc hg hs hw]; simp [appendStorageEndpoint, he]
    | some e => rw [update_absent_writeErr hc hg hs hw]; simp [appendStorageEndpoint, he]
  · rw [update_absent hc hg hs hw]

/-- Witness for C9 at the all-nil subnet. -/
theorem c9_nil_fields_witness :
    subnetEndpoints emptySubnet = [] ∧
    (updateSubnetServiceEndpoints demoCloud (okSubnetEnv emptySubnet)).written =
      some { SubnetPropertiesFormat := some { ServiceEndpoints := some [storageServiceEndpoint demoCloud.Location] } } ∧
    (updateSubnetServiceEndpoints demoCloud (okSubnetEnv emptySubnet)).err = none := by
  have h := c9_nil_fields_treated_as_empty demoCloud (okSubnetEnv emptySubnet) emptySubnet rfl (Or.inl rfl)
  exact ⟨h.1, (h.2 rfl).1, (h.2 rfl).2 rfl⟩

/-- Claim C3: two invocations sharing a lock key never interleave their
read-modify-write sequences — every realizable schedule runs one
invocation to completion before the other begins — while invocations
with distinct keys admit a realizable fully overlapped schedule. -/
theorem c3_same_key_serialized :
    (∀ (cloud1 cloud2 : Cloud) (env1 env2 : SubnetEnv) (zs : List (Bool × SubnetAction)),
      cloud1.hasSubnetsClient = true → cloud2.hasSubnetsClient = true →
      lockKeyOf cloud1 = lockKeyOf cloud2 →
      Weave (tagThread true (invocationActions cloud1 env1))
        (tagThread false (invocationActions cloud2 env2)) zs →
      (runTrace [] zs).isSome = true →
      zs = tagThread true (invocationActions cloud1 env1) ++
            tagThread false (invocationActions cloud2 env2) ∨
      zs = tagThread false (invocationActions cloud2 env2) ++
            tagThread true (invocationActions cloud1 env1)) ∧
    (∃ (cloud1 cloud2 : Cloud) (env1 env2 : SubnetEnv) (zs : List (Bool × SubnetAction)),
      lockKeyOf cloud1 ≠ lockKeyOf cloud2 ∧
      Weave (tagThread true (invocationActions cloud1 env1))
        (tagThread false (invocationActions cloud2 env2)) zs ∧
      (runTrace [] zs).isSome = true ∧
      zs ≠ tagThread true (invocationActions cloud1 env1) ++
            tagThread false (invocationActions cloud2 env2) ∧
      zs ≠ tagThread false (invocationActions cloud2 env2) ++
            tagThread true (invocationActions cloud1 env1)) := by
  constructor
  · intro cloud1 cloud2 env1 env2 zs h1 h2 hk hw hv
    have hA : invocationActions cloud1 env1 =
        SubnetAction.lock (lockKeyOf cloud1) ::
          (criticalActions env1 ++ [SubnetAction.unlock (lockKeyOf cloud1)]) := by
      simp [invocationActions, h1]
    have hB : invocationActions cloud2 env2 =
        SubnetAction.lock (lockKeyOf cloud1) ::
          (criticalActions env2 ++ [SubnetAction.unlock (lockKeyOf cloud1)]) := by
      simp [invocationActions, h2, ← hk]
    rw [hA, hB] at hw ⊢
    simp only [tagThread, List.map_cons] at hw
    cases hw with
    | @left x xs ys zs2 hw2 =>
      have hv2 : (runTrace [(lockKeyOf cloud1, true)] zs2).isSome = true := by
        simpa [runTrace, lockStep] using hv
      have h3 := locked_run_sequential (lockKeyOf cloud1) true (criticalActions env1)
        (criticalActions_mem env1)
        (criticalActions env2 ++ [SubnetAction.unlock (lockKeyOf cloud1)]) zs2
        [(lockKeyOf cloud1, true)] (by simp [List.lookup]) hw2 hv2
      left
      simp only [tagThread] at h3
      simp [tagThread, h3]
    | @right y xs ys zs2 hw2 =>
      have hv2 : (runTrace [(lockKeyOf cloud1, false)] zs2).isSome = true := by
        simpa [runTrace, lockStep] using hv
      have h3 := locked_run_sequential (lockKeyOf cloud1) false (criticalActions env2)
        (criticalActions_mem env2)
        (criticalActions env1 ++ [SubnetAction.unlock (lockKeyOf cloud1)]) zs2
        [(lockKeyOf cloud1, false)] (by simp [List.lookup]) (weave_swap hw2) hv2
      right
      simp only [tagThread] at h3
      simp [tagThread, h3]
  · refine ⟨demoCloud, demoCloudB, okSubnetEnv emptySubnet, okSubnetEnv emptySubnet,
      [(true, SubnetAction.lock (lockKeyOf demoCloud)),
       (false, SubnetAction.lock (lockKeyOf demoCloudB)),
       (true, SubnetAction.get), (false, SubnetAction.get),
       (true, SubnetAction.createOrUpdate), (false, SubnetAction.createOrUpdate),
       (true, SubnetAction.unlock (lockKeyOf demoCloud)),
       (false, SubnetAction.unlock (lockKeyOf demoCloudB))],
      by decide, ?_, by decide, by decide, by decide⟩
    have e1 : tagThread true (invocationActions demoCloud (okSubnetEnv emptySubnet)) =
        [(true, SubnetAction.lock (lockKeyOf demoCloud)), (true, SubnetAction.get),
         (true, SubnetAction.createOrUpdate), (true, SubnetAction.unlock (lockKeyOf demoCloud))] := by
      decide
    have e2 : tagThread false (invocationActions demoCloudB (okSubnetEnv emptySubnet)) =
        [(false, SubnetAction.lock (lockKeyOf demoCloudB)), (false, SubnetAction.get),
         (false, SubnetAction.createOrUpdate), (false, SubnetAction.unlock (lockKeyOf demoCloudB))] := by
      decide
    rw [e1, e2]
    repeat first
      | exact Weave.nil
      | apply Weave.left
      | apply Weave.right

/-- Witness for C3's serialization part: a concrete same-key sequential
schedule is one of the two allowed orders. -/
theorem c3_same_key_serialized_witness :
    c3SeqTrace = tagThread true (invocationActions demoCloud (okSubnetEnv emptySubnet)) ++
        tagThread false (invocationActions demoCloud (okSubnetEnv c2Subnet)) ∨
    c3SeqTrace = tagThread false (invocationActions demoCloud (okSubnetEnv c2Subnet)) ++
        tagThread true (invocationActions demoCloud (okSubnetEnv emptySubnet)) :=
  c3_same_key_serialized.1 demoCloud demoCloud (okSubnetEnv emptySubnet) (okSubnetEnv c2Subnet)
    c3SeqTrace rfl rfl rfl (weave_append _ _) (by decide)

/-! ## Lemmas on the getCloudProvider stages -/

theorem azAfterCredFile_none {sn ns ua : String} {env : CloudEnv}
    (h : (azAfterCredFile sn ns ua env).1 = none) :
    isConfigIncomplete (azAfterSecret sn ns ua env).1 = true ∧
    env.openFile (credFilePath env) = none ∧
    ∃ e, env.newCloudFromFile (credFilePath env) = Except.error e ∧
      (azAfterCredFile sn ns ua env).2.1 = some e := by
  by_cases hi : isConfigIncomplete (azAfterSecret sn ns ua env).1 = true
  · cases ho : env.openFile (credFilePath env) with
    | some eo =>
      exfalso
      simp [azAfterCredFile, hi, ho] at h
    | none =>
      cases hn : env.newCloudFromFile (credFilePath env) with
      | ok c =>
        exfalso
        simp [azAfterCredFile, hi, ho, hn] at h
      | error e =>
        exact ⟨hi, rfl, e, rfl, by simp [azAfterCredFile, hi, ho, hn]⟩
  · exfalso
    simp [azAfterCredFile, hi] at h

theorem azBeforeController_proj (sn ns ua : String) (env : CloudEnv) :
    (azBeforeController sn ns ua env).2.1 = (azAfterCredFile sn ns ua env).2.1 ∧
    (azBeforeController sn ns ua env).2.2.1 = (azAfterCredFile sn ns ua env).2.2 ∧
    ((azBeforeController sn ns ua env).1 = none ↔ (azAfterCredFile sn ns ua env).1 = none) ∧
    ((azBeforeController sn ns ua env).2.2.2 = true → (azAfterCredFile sn ns ua env).1 = none) := by
  by_cases hk : kubeClientOk env = true
  · cases hq : (azAfterCredFile sn ns ua env).1 with
    | none => simp [azBeforeController, hk, hq]
    | some a =>
      by_cases hkc : a.hasKubeClient = false <;> simp [azBeforeController, hk, hq, hkc]
  · simp [azBeforeController, hk]

/-! ## Claims C7, C8, C10 -/

/-- Claim C7 counterexample: with no kube client (not-in-cluster), an
unreadable secret, and a credential file that opens but whose parse
fails, neither initialization succeeds — yet the returned Cloud is nil
(the reassigned constructor result), with a nil error.  The claim's
"always a non-nil Cloud" fails. -/
theorem c7_counterexample :
    (getCloudProvider "" "" "sec" "ns" "ua" c7Env).az = none ∧
    (getCloudProvider "" "" "sec" "ns" "ua" c7Env).err = none ∧
    (getCloudProvider "" "" "sec" "ns" "ua" c7Env).loadErr = some "parse error" :=
  ⟨rfl, rfl, rfl⟩

/-- Claim C7 (amended): getCloudProvider returns a non-nil error exactly
when building the Kubernetes client fails with an error other than
file-not-found or not-in-cluster (and then the original non-nil Cloud is
returned).  On every other path the error is nil; the returned Cloud is
non-nil except when the credential file was opened but the cloud
constructor failed, in which case the constructor's nil Cloud is
returned with a nil error. -/
theorem c7_nonfatal_bootstrap (kubeconfig nodeID sn ns ua : String) (env : CloudEnv) :
    ((getCloudProvider kubeconfig nodeID sn ns ua env).err ≠ none ↔ kubeFatalError env ≠ none) ∧
    ((getCloudProvider kubeconfig nodeID sn ns ua env).err ≠ none →
      (getCloudProvider kubeconfig nodeID sn ns ua env).az = some (initialAz sn ns ua)) ∧
    ((getCloudProvider kubeconfig nodeID sn ns ua env).az = none →
      (getCloudProvider kubeconfig nodeID sn ns ua env).err = none ∧
      isConfigIncomplete (azAfterSecret sn ns ua env).1 = true ∧
      env.openFile (credFilePath env) = none ∧
      ∃ e, env.newCloudFromFile (credFilePath env) = Except.error e) := by
  cases hf : kubeFatalError env with
  | some m => simp [getCloudProvider, hf]
  | none =>
    by_cases hpan : (azBeforeController sn ns ua env).2.2.2 = true
    · obtain ⟨hi, ho, e, hn, _⟩ :=
        azAfterCredFile_none ((azBeforeController_proj sn ns ua env).2.2.2 hpan)
      simp [getCloudProvider, hf, hpan]
      exact ⟨hi, ho, e, hn⟩
    · simp [getCloudProvider, hf, hpan]
      intro hnone
      have hr1 : (azBeforeController sn ns ua env).1 = none := by
        rcases h1 : (azBeforeController sn ns ua env).1 with _ | a
        · rfl
        · rw [h1] at hnone
          split at hnone <;> simp at hnone
      obtain ⟨hi, ho, e, hn, _⟩ :=
        azAfterCredFile_none ((azBeforeController_proj sn ns ua env).2.2.1.mp hr1)
      exact ⟨hi, ho, e, hn⟩

/-- Witness for the amended C7: with nothing loadable, the returned Cloud
is the original non-nil value and the error is nil. -/
theorem c7_nonfatal_bootstrap_witness :
    ¬((getCloudProvider "" "" "sec" "ns" "ua" noConfigEnv).err ≠ none) :=
  fun h => ((c7_nonfatal_bootstrap "" "" "sec" "ns" "ua" noConfigEnv).1.mp h) rfl

/-- Claim C8: when the secret-based configuration is incomplete (empty
TenantID, SubscriptionID, or ResourceGroup), the credential file that is
opened is the one named by the AZURE_CREDENTIAL_FILE environment
variable when set, else the Windows default on Windows and the Linux
default elsewhere. -/
theorem c8_cred_file_selection (kubeconfig nodeID sn ns ua : String) (env : CloudEnv)
    (hfatal : kubeFatalError env = none)
    (hinc : isConfigIncomplete (azAfterSecret sn ns ua env).1 = true) :
    (getCloudProvider kubeconfig nodeID sn ns ua env).credFileTried = some (credFilePath env) ∧
    (∀ f, env.credFileEnvVar = some f → credFilePath env = f) ∧
    (env.credFileEnvVar = none → env.goos = "windows" →
      credFilePath env = DefaultCredFilePathWindows) ∧
    (env.credFileEnvVar = none → env.goos ≠ "windows" →
      credFilePath env = DefaultCredFilePathLinux) := by
  have htried : (azAfterCredFile sn ns ua env).2.2 = some (credFilePath env) := by
    cases ho : env.openFile (credFilePath env) with
    | some eo => simp [azAfterCredFile, hinc, ho]
    | none =>
      cases hn : env.newCloudFromFile (credFilePath env) with
      | ok c => simp [azAfterCredFile, hinc, ho, hn]
      | error e => simp [azAfterCredFile, hinc, ho, hn]
  refine ⟨?_, ?_, ?_, ?_⟩
  · have hproj := (azBeforeController_proj sn ns ua env).2.1
    by_cases hpan : (azBeforeController sn ns ua env).2.2.2 = true <;>
      simp [getCloudProvider, hfatal, hpan, hproj, htried]
  · intro f hf2
    simp [credFilePath, hf2]
  · intro h1 h2
    simp [credFilePath, h1, h2]
  · intro h1 h2
    simp [credFilePath, h1, h2]

/-- Witness for C8: with no environment variable on Linux, the default
Linux path is opened. -/
theorem c8_cred_file_selection_witness :
    (getCloudProvider "" "" "sec" "ns" "ua" noConfigEnv).credFileTried =
      some (credFilePath noConfigEnv) ∧
    credFilePath noConfigEnv = DefaultCredFilePathLinux := by
  have h := c8_cred_file_selection "" "" "sec" "ns" "ua" noConfigEnv rfl rfl
  exact ⟨h.1, h.2.2.2 rfl (by decide)⟩

/-- Claim C10: with an empty nodeID (controller mode) and the cloud
configuration loaded without error, the returned Cloud has
UseInstanceMetadata false; with a non-empty nodeID the returned Cloud is
exactly the pre-adjustment value (UseInstanceMetadata untouched). -/
theorem c10_controller_disables_metadata (kubeconfig nodeID sn ns ua : String) (env : CloudEnv) :
    (nodeID = "" → (getCloudProvider kubeconfig nodeID sn ns ua env).loadErr = none →
      ∃ a, (getCloudProvider kubeconfig nodeID sn ns ua env).az = some a ∧
        a.UseInstanceMetadata = false) ∧
    (nodeID ≠ "" →
      (getCloudProvider kubeconfig nodeID sn ns ua env).az = azUntweaked sn ns ua env) := by
  cases hf : kubeFatalError env with
  | some m =>
    constructor
    · intro h1 h2
      simp [getCloudProvider, hf] at h2
    · intro h1
      simp [getCloudProvider, azUntweaked, hf]
  | none =>
    by_cases hpan : (azBeforeController sn ns ua env).2.2.2 = true
    · constructor
      · intro h1 h2
        simp [getCloudProvider, hf, hpan] at h2
        obtain ⟨_, _, e, _, he⟩ :=
          azAfterCredFile_none ((azBeforeController_proj sn ns ua env).2.2.2 hpan)
        rw [(azBeforeController_proj sn ns ua env).1, he] at h2
        cases h2
      · intro h1
        simp [getCloudProvider, azUntweaked, hf, hpan]
        exact ((azBeforeController_proj sn ns ua env).2.2.1.mpr
          ((azBeforeController_proj sn ns ua env).2.2.2 hpan)).symm
    · constructor
      · intro h1 h2
        subst h1
        simp [getCloudProvider, hf, hpan] at h2 ⊢
        rcases hr : (azBeforeController sn ns ua env).1 with _ | a
        · exfalso
          obtain ⟨_, _, e, _, he⟩ :=
            azAfterCredFile_none ((azBeforeController_proj sn ns ua env).2.2.1.mp hr)
          rw [(azBeforeController_proj sn ns ua env).1, he] at h2
          cases h2
        · simp [h2, hr]
      · intro h1
        simp [getCloudProvider, azUntweaked, hf, hpan, h1]

/-- Witness for C10: controller mode on a fully successful load disables
instance metadata. -/
theorem c10_controller_disables_metadata_witness :
    ∃ a, (getCloudProvider "" "" "sec" "ns" "ua" happyCloudEnv).az = some a ∧
      a.UseInstanceMetadata = false :=
  (c10_controller_disables_metadata "" "" "sec" "ns" "ua" happyCloudEnv).1 rfl rfl
